import Mathlib

/-!
Verification model of the Tabular Import Intelligence Engine
(backend/app/api/imports.py).

The Python module is shallowly embedded here.  Cell values are modelled as
`Option String`: `none` is an absent / `None` cell and `some s` is the textual
content of a cell (all comparisons in the source go through `str(...)`, so
string cells capture the observable behaviour; a cell holding the Python
value `0` or `0.0` would additionally be falsy, which does not occur in the
situations analysed below).  Python float arithmetic on the small sampled
ratios is modelled by exact cross-multiplied integer comparisons; for the
sample sizes used by the code (at most 30 values) the exact rational
comparison agrees with the IEEE-double comparison performed by CPython,
except for half-ulp boundary artefacts that are unreachable at these sizes.
`int(float(s))` is modelled exactly (truncation toward zero of the decimal
value); it deviates from CPython only beyond 2^53 where doubles round.
-/

set_option maxRecDepth 100000

namespace FlowboardImports

/-! ## Python string primitives -/

/-- Python `str.strip()` whitespace characters. -/
def pyWs (c : Char) : Bool :=
  c = ' ' || c = '\t' || c = '\n' || c = '\r' || c = '\x0b' || c = '\x0c'

def stripChars (l : List Char) : List Char :=
  ((l.dropWhile pyWs).reverse.dropWhile pyWs).reverse

/-- Python `str.strip()`. -/
def pyStrip (s : String) : String := ⟨stripChars s.data⟩

def pyLowerChar (c : Char) : Char :=
  if 'A' ≤ c ∧ c ≤ 'Z' then Char.ofNat (c.toNat + 32) else c

def pyUpperChar (c : Char) : Char :=
  if 'a' ≤ c ∧ c ≤ 'z' then Char.ofNat (c.toNat - 32) else c

/-- Python `str.lower()` (ASCII fragment; the vocabularies are ASCII). -/
def pyLower (s : String) : String := ⟨s.data.map pyLowerChar⟩

/-- Python `str.upper()` (ASCII fragment). -/
def pyUpper (s : String) : String := ⟨s.data.map pyUpperChar⟩

def isDigitChar (c : Char) : Bool := '0' ≤ c ∧ c ≤ '9'

/-- Python `str.isdigit()` (ASCII fragment: nonempty and all digits). -/
def pyIsDigit (s : String) : Bool := s.data ≠ [] && s.data.all isDigitChar

/-- Substring test on character lists (Python `needle in haystack`). -/
def listSub (n : List Char) : List Char → Bool
  | [] => n.isEmpty
  | c :: t => n.isPrefixOf (c :: t) || listSub n t

/-- Python `needle in haystack` on strings. -/
def pyIn (needle hay : String) : Bool := listSub needle.data hay.data

/-- Python `s[:n]`. -/
def pyTake (s : String) (n : Nat) : String := ⟨s.data.take n⟩

/-- Python `s.startswith(p)`. -/
def pyStartsWith (p s : String) : Bool := p.data.isPrefixOf s.data

/-- Python `s.split(sep)` for a single-character separator (keeps empty parts). -/
def splitOnChar (sep : Char) (l : List Char) : List (List Char) :=
  match l with
  | [] => [[]]
  | c :: t =>
    let r := splitOnChar sep t
    if c = sep then [] :: r
    else
      match r with
      | [] => [[c]]
      | h :: t2 => (c :: h) :: t2

def pySplit (sep : Char) (s : String) : List String :=
  (splitOnChar sep s.data).map String.mk

/-- Python `s.replace(".", "").replace("-", "")`. -/
def dropDotsDashes (s : String) : String :=
  ⟨s.data.filter (fun c => ¬ (c = '.' ∨ c = '-'))⟩

/-- Python `s.replace(",", "")`. -/
def dropCommas (s : String) : String := ⟨s.data.filter (· ≠ ',')⟩

def natOfDigits (l : List Char) : Nat :=
  l.foldl (fun a c => a * 10 + (c.toNat - 48)) 0

def spanDigits (l : List Char) : List Char × List Char :=
  (l.takeWhile isDigitChar, l.dropWhile isDigitChar)

/-! ## Python float parsing

`float(s)` on an already-stripped string: optional sign, then either an
infinity/NaN word or a decimal mantissa with optional exponent.  (Numeric
underscores, accepted by CPython between digits, are not modelled; no call
site in the analysed pipeline depends on them.) -/

def floatExpDigitsOk (r : List Char) : Bool :=
  match r with
  | '+' :: r2 => (spanDigits r2).1 ≠ [] && (spanDigits r2).2 = []
  | '-' :: r2 => (spanDigits r2).1 ≠ [] && (spanDigits r2).2 = []
  | _ => (spanDigits r).1 ≠ [] && (spanDigits r).2 = []

def floatExpOk : List Char → Bool
  | [] => true
  | 'e' :: r => floatExpDigitsOk r
  | 'E' :: r => floatExpDigitsOk r
  | _ => false

def floatWordOk (l : List Char) : Bool :=
  let w := l.map pyLowerChar
  w = "inf".data || w = "infinity".data || w = "nan".data

def floatMantissaOk (l : List Char) : Bool :=
  let (ip, r1) := spanDigits l
  match r1 with
  | '.' :: r2 =>
    let (fp, r3) := spanDigits r2
    (ip ≠ [] || fp ≠ []) && floatExpOk r3
  | _ => ip ≠ [] && floatExpOk r1

/-- Whether Python `float(s)` succeeds (surrounding whitespace is allowed
by `float` and stripped first). -/
def pyFloatOk (s : String) : Bool :=
  match (pyStrip s).data with
  | '+' :: r => floatWordOk r || floatMantissaOk r
  | '-' :: r => floatWordOk r || floatMantissaOk r
  | l => floatWordOk l || floatMantissaOk l

def floatExpDigitsVal (r : List Char) : Option Int :=
  match r with
  | '+' :: r2 =>
    let (d, rest) := spanDigits r2
    if d ≠ [] ∧ rest = [] then some (natOfDigits d) else none
  | '-' :: r2 =>
    let (d, rest) := spanDigits r2
    if d ≠ [] ∧ rest = [] then some (-(natOfDigits d : Int)) else none
  | _ =>
    let (d, rest) := spanDigits r
    if d ≠ [] ∧ rest = [] then some (natOfDigits d) else none

/-- Exponent part value for `pyIntOfFloat`; `none` when malformed. -/
def floatExpVal : List Char → Option Int
  | [] => some 0
  | 'e' :: r => floatExpDigitsVal r
  | 'E' :: r => floatExpDigitsVal r
  | _ => none

def intOfMantissa (l : List Char) : Option Int :=
  let (ip, r1) := spanDigits l
  let core : Option (List Char × List Char × List Char) :=
    match r1 with
    | '.' :: r2 =>
      let (fp, r3) := spanDigits r2
      if ip ≠ [] ∨ fp ≠ [] then some (ip, fp, r3) else none
    | _ => if ip ≠ [] then some (ip, [], r1) else none
  match core with
  | none => none
  | some (ip, fp, rest) =>
    match floatExpVal rest with
    | none => none
    | some e =>
      let m : Nat := natOfDigits (ip ++ fp)
      let e' : Int := e - (fp.length : Int)
      some (if e' ≥ 0 then (m : Int) * (10 : Int) ^ e'.toNat else (m / 10 ^ (-e').toNat : Nat))

/-- Python `int(float(s))` for a stripped string: truncation toward zero of
the exact decimal value, `none` when `float` raises `ValueError` (an
infinity, which raises `OverflowError` in `int`, is also mapped to `none`). -/
def pyIntOfFloat (s : String) : Option Int :=
  match (pyStrip s).data with
  | '+' :: r => if floatWordOk r then none else intOfMantissa r
  | '-' :: r => if floatWordOk r then none else (intOfMantissa r).map (fun i => -i)
  | l => if floatWordOk l then none else intOfMantissa l

/-! ## Regex-like matchers used by the detectors -/

/-- Pattern `^\d{1,3}%$`. -/
def isPercentage (s : String) : Bool :=
  let (d, r) := spanDigits s.data
  1 ≤ d.length && d.length ≤ 3 && r = ['%']

def durationUnits : List String :=
  ["h", "hr", "hrs", "hour", "hours", "m", "min", "mins", "minute", "minutes",
   "d", "day", "days", "w", "week", "weeks", "pt", "pts", "point", "points"]

def estimateUnits : List String :=
  ["h", "hr", "hrs", "m", "min", "pt", "pts", "point", "points"]

/-- Pattern `^\d+\.?\d*\s*(unit)$` for a given unit vocabulary. -/
def numberUnitMatch (units : List String) (s : String) : Bool :=
  let (d, r1) := spanDigits s.data
  if d = [] then false
  else
    let r2 := match r1 with
      | '.' :: t => (spanDigits t).2
      | _ => r1
    units.contains (String.mk (r2.dropWhile pyWs))

/-- Pattern `^[A-Z][a-z]+ [A-Z][a-z]+$` (person name). -/
def isPersonName (s : String) : Bool :=
  match s.data with
  | c :: t =>
    if 'A' ≤ c ∧ c ≤ 'Z' then
      let lows := t.takeWhile (fun c => 'a' ≤ c ∧ c ≤ 'z')
      let rest := t.dropWhile (fun c => 'a' ≤ c ∧ c ≤ 'z')
      if lows ≠ [] then
        match rest with
        | ' ' :: c2 :: t2 =>
          if 'A' ≤ c2 ∧ c2 ≤ 'Z' then
            let lows2 := t2.takeWhile (fun c => 'a' ≤ c ∧ c ≤ 'z')
            lows2 ≠ [] && t2.dropWhile (fun c => 'a' ≤ c ∧ c ≤ 'z') = []
          else false
        | _ => false
      else false
    else false
  | [] => false

/-- Pattern `^\d+(\.\d+)*\.?$` (hierarchical dot numbering), expressed via
dot-splitting: each dot-separated segment is a nonempty digit run, except
that a single trailing empty segment (a trailing dot) is allowed. -/
def isNumberedId (s : String) : Bool :=
  let segs := pySplit '.' s
  let core := if segs.getLast? = some "" ∧ 2 ≤ segs.length then segs.dropLast else segs
  core ≠ [] && core.all pyIsDigit

/-! ## Date format matching (`datetime.strptime` against the 11 formats)

A backtracking matcher over format tokens, mirroring CPython `_strptime`
semantics: `%Y` is exactly 4 digits, `%m`/`%d`/`%H`/`%M`/`%S` allow one or
two digits within their ranges, `%b`/`%B` are case-insensitive English month
names, a literal space matches one or more whitespace characters, and the
resulting day must exist in the resulting month/year. -/

inductive DTok where
  | lit (c : Char)
  | sp
  | year
  | month
  | day
  | hour
  | minute
  | second
  | monAbbr
  | monFull
deriving DecidableEq

def monthAbbrs : List String :=
  ["jan", "feb", "mar", "apr", "may", "jun", "jul", "aug", "sep", "oct", "nov", "dec"]

def monthFulls : List String :=
  ["january", "february", "march", "april", "may", "june", "july", "august",
   "september", "october", "november", "december"]

def digitVal (c : Char) : Nat := c.toNat - 48

/-- One-or-two-digit numeric field in the style of the `_strptime` regexes:
the valid two-digit consumption and the valid one-digit consumption are
both offered to the backtracking matcher. -/
def twoDigitField (ok2 : Nat → Prop) [DecidablePred ok2] (ok1 : Nat → Prop) [DecidablePred ok1]
    (l : List Char) : List (List Char × Option Nat) :=
  (match l with
   | a :: b :: t =>
     if isDigitChar a ∧ isDigitChar b ∧ ok2 (natOfDigits [a, b]) then
       [(t, some (natOfDigits [a, b]))]
     else []
   | _ => []) ++
  (match l with
   | a :: t => if isDigitChar a ∧ ok1 (digitVal a) then [(t, some (digitVal a))] else []
   | [] => [])

/-- Case-insensitive month-name consumption for `%b` / `%B`. -/
def monthNameOptions (names : List String) (l : List Char) : List (List Char × Option Nat) :=
  names.enum.filterMap (fun p =>
    if (p.2.data).isPrefixOf (l.map pyLowerChar) then
      some (l.drop p.2.data.length, some (p.1 + 1))
    else none)

/-- Possible consumptions of one token: (rest, captured value when any). -/
def dtokOptions : DTok → List Char → List (List Char × Option Nat)
  | .lit c, l => match l with
    | c2 :: t => if c2 = c then [(t, none)] else []
    | [] => []
  | .sp, l =>
    (match l with
     | c :: t => if pyWs c then [(t.dropWhile pyWs, none)] else []
     | [] => [])
  | .year, l =>
    match l with
    | a :: b :: c :: d :: t =>
      if isDigitChar a && isDigitChar b && isDigitChar c && isDigitChar d then
        [(t, some (natOfDigits [a, b, c, d]))]
      else []
    | _ => []
  | .month, l => twoDigitField (fun v => 1 ≤ v ∧ v ≤ 12) (fun v => 1 ≤ v ∧ v ≤ 9) l
  | .day, l => twoDigitField (fun v => 1 ≤ v ∧ v ≤ 31) (fun v => 1 ≤ v ∧ v ≤ 9) l
  | .hour, l => twoDigitField (fun v => v ≤ 23) (fun _ => True) l
  | .minute, l => twoDigitField (fun v => v ≤ 59) (fun _ => True) l
  | .second, l => twoDigitField (fun v => v ≤ 59) (fun _ => True) l
  | .monAbbr, l => monthNameOptions monthAbbrs l
  | .monFull, l => monthNameOptions monthFulls l

def isLeapYear (y : Nat) : Bool := y % 4 = 0 && (y % 100 ≠ 0 || y % 400 = 0)

def daysInMonth (y m : Nat) : Nat :=
  if m = 2 then (if isLeapYear y then 29 else 28)
  else if m ∈ [4, 6, 9, 11] then 30
  else 31

/-- Whether the captured (year, month, day) builds a valid `datetime`. -/
def validYmd (y m d : Nat) : Bool := 1 ≤ y && 1 ≤ d && d ≤ daysInMonth y m

def dmatch : List DTok → List Char → Nat → Nat → Nat → Bool
  | [], l, y, m, d => l = [] && validYmd y m d
  | t :: ts, l, y, m, d =>
    (dtokOptions t l).any (fun opt =>
      let y' := if t = .year then opt.2.getD y else y
      let m' := if t = .month ∨ t = .monAbbr ∨ t = .monFull then opt.2.getD m else m
      let d' := if t = .day then opt.2.getD d else d
      dmatch ts opt.1 y' m' d')

def datePatterns : List (List DTok) :=
  [ [.year, .lit '-', .month, .lit '-', .day],
    [.month, .lit '/', .day, .lit '/', .year],
    [.day, .lit '/', .month, .lit '/', .year],
    [.year, .lit '/', .month, .lit '/', .day],
    [.day, .lit '-', .month, .lit '-', .year],
    [.month, .lit '-', .day, .lit '-', .year],
    [.monAbbr, .sp, .day, .lit ',', .sp, .year],
    [.monFull, .sp, .day, .lit ',', .sp, .year],
    [.day, .sp, .monAbbr, .sp, .year],
    [.day, .sp, .monFull, .sp, .year],
    [.year, .lit '-', .month, .lit '-', .day, .sp, .hour, .lit ':', .minute, .lit ':', .second] ]

/-- Whether `datetime.strptime(s, p)` succeeds for any of the 11 patterns
(default year 1900, month 1, day 1). -/
def matchesAnyDate (s : String) : Bool :=
  datePatterns.any (fun p => dmatch p s.data 1900 1 1)

/-! ## Cells, rows, structured rows -/

/-- A raw cell: `none` is an absent/`None` cell, `some s` textual content. -/
abbrev Cell := Option String

/-- A structured row: the dict built by `process_raw_to_structured`
(`row_dict[headers[i]] = cell`; for duplicate header names the later
column index wins, hence lookups below read the last matching entry). -/
abbrev StructRow := List (String × Cell)

/-- Presence of the key in the row dict (`header in row` / `row.get` with
a default): `none` = key absent, `some c` = key present with cell `c`. -/
def rowEntry (r : StructRow) (h : String) : Option Cell := r.reverse.lookup h

/-- Python `row.get(header)`: `None` both for an absent key and for a
present `None` cell. -/
def rowGet (r : StructRow) (h : String) : Option String := (rowEntry r h).join

/-- Python truthiness filter on an optional string (`if value:`). -/
def truthyOpt : Option String → Option String
  | some s => if s = "" then none else some s
  | none => none

/-- Python `row.get(header)` followed by a truthiness test. -/
def truthyCell (r : StructRow) (h : String) : Option String := truthyOpt (rowGet r h)

/-- Python `str(row.get(header, d))`: an absent key gives the default `d`,
a present `None` cell stringifies to `"None"`. -/
def pyStrGetD (r : StructRow) (h d : String) : String :=
  match rowEntry r h with
  | none => d
  | some none => "None"
  | some (some s) => s

/-! ## detect_data_type -/

def priorityTypeVocab : List String :=
  ["P0", "P1", "P2", "P3", "P4", "HIGH", "MEDIUM", "LOW", "CRITICAL"]

def statusTypeVocab : List String :=
  ["TODO", "TO DO", "TO-DO", "DONE", "IN PROGRESS", "IN-PROGRESS",
   "COMPLETE", "COMPLETED", "PENDING", "BLOCKED", "OPEN", "CLOSED",
   "NOT STARTED", "IN REVIEW", "REVIEW", "QA", "TESTING"]

/-- Email heuristic: `"@" in s and "." in s.split("@")[-1]`. -/
def emailLike (s : String) : Bool :=
  pyIn "@" s && pyIn "." (((pySplit '@' s).getLast?).getD "")

/-- Embeds `detect_data_type(value)`.  The `context_hint` parameter of the
source is omitted: every call site in the module passes no hint, so the
hint-gated `row_identifier` and `person` branches are unreachable. -/
def detect_data_type (value : Cell) : String :=
  match value with
  | none => "empty"
  | some v =>
    if v = "" then "empty"
    else
      let s := pyStrip v
      if priorityTypeVocab.contains (pyUpper s) then "priority"
      else if statusTypeVocab.contains (pyUpper s) then "status"
      else if isPercentage s then "percentage"
      else if numberUnitMatch durationUnits (pyLower s) then "duration"
      else if pyFloatOk (dropCommas s) then "number"
      else if matchesAnyDate s then "date"
      else if emailLike s then "email"
      else "text"

/-! ## Header row detection -/

def headerKeywords : List String :=
  ["task", "title", "name", "description", "status", "priority",
   "assignee", "owner", "responsible", "date", "due", "deadline",
   "estimate", "points", "hours", "effort", "start", "end",
   "id", "number", "type", "category", "label", "tag", "notes",
   "comment", "progress", "completion", "phase", "stage", "column"]

/-- Embeds `calculate_header_score(row, row_idx)`.  The final
`int(fill_ratio * 20)` is modelled as exact floor division; for the row
widths involved this agrees with the CPython double computation. -/
def calculate_header_score (row : List Cell) (row_idx : Nat) : Int :=
  if row.isEmpty || row.all (·.isNone) then -1
  else
    let non_empty := row.filterMap (fun c => match c with
      | none => none
      | some s => if pyStrip s = "" then none else some s)
    if non_empty.length < 2 then -1
    else
      let cellScore (s : String) : Int :=
        let cstr := pyLower (pyStrip s)
        (if headerKeywords.any (fun k => pyIn k cstr) then 20 else 0) +
        (if 2 ≤ cstr.data.length ∧ cstr.data.length ≤ 30 then 5 else 0) +
        (if isDigitChar (cstr.data.headD ' ') then 0 else 3) +
        (let t := detect_data_type (some s)
         if t = "text" then 5 else if t = "number" ∨ t = "date" then -10 else 0)
      let base := (non_empty.map cellScore).sum
      let penalty : Int := if 10 < row_idx then ((row_idx : Int) - 10) * 5 else 0
      let fill : Int := ((20 * non_empty.length) / row.length : Nat)
      base - penalty + fill

/-- The scores of a row window starting at absolute index `i`. -/
def scoresFrom : List (List Cell) → Nat → List Int
  | [], _ => []
  | r :: t, i => calculate_header_score r i :: scoresFrom t (i + 1)

/-- The best-candidate fold of `detect_header_row`: strict `>` replacement,
carrying (best index, best score). -/
def bestFrom : List (List Cell) → Nat → Nat → Int → Nat × Int
  | [], _, bi, bs => (bi, bs)
  | r :: t, i, bi, bs =>
    let sc := calculate_header_score r i
    if bs < sc then bestFrom t (i + 1) i sc else bestFrom t (i + 1) bi bs

/-- Embeds `detect_header_row(raw_rows)` with the default `max_check=15`:
returns the chosen row index and the chosen row. -/
def detect_header_row (raw : List (List Cell)) : Nat × List Cell :=
  if raw.isEmpty then (0, [])
  else
    let b := bestFrom (raw.take 15) 0 0 (-1)
    (b.1, raw.getD b.1 [])

/-! ## process_raw_to_structured -/

/-- Header synthesis: `str(cell) if cell else f"Column N"` (falsy cells —
absent or empty — are replaced by a positional name). -/
def synthHeaders (row : List Cell) : List String :=
  row.enum.map (fun p => match p.2 with
    | some s => if s = "" then "Column " ++ Nat.repr (p.1 + 1) else s
    | none => "Column " ++ Nat.repr (p.1 + 1))

/-- A row all of whose cells are `None` or blank strings. -/
def rowIsBlank (row : List Cell) : Bool :=
  row.all (fun c => match c with
    | none => true
    | some s => pyStrip s = "")

/-- Row dict construction (`zip` truncates to the shorter side, mirroring
`if i < len(headers)`). -/
def buildRow (headers : List String) (row : List Cell) : StructRow := headers.zip row

/-- Embeds `process_raw_to_structured(raw_rows, header_row_idx)`. -/
def process_raw_to_structured (raw : List (List Cell)) (hidx : Nat) :
    List String × List StructRow :=
  if raw.length ≤ hidx then ([], [])
  else
    let headers := synthHeaders (raw.getD hidx [])
    let rows := (raw.drop (hidx + 1)).filterMap (fun row =>
      if rowIsBlank row then none else some (buildRow headers row))
    (headers, rows)

/-! ## Column pattern analysis (`analyze_column_patterns`)

Ratios computed by the source in float arithmetic are represented as exact
numerator/denominator pairs and compared by cross-multiplication. -/

/-- An exact fraction (numerator, denominator). -/
abbrev Frac := Nat × Nat

structure ColAnalysis where
  type : String
  confidence : Frac
  sample : Option (List Int) := none
  avg_length : Option Frac := none
  unique_ratio : Option Frac := none
deriving DecidableEq

/-- The stripped, nonempty sample values of a column (`non_empty`). -/
def colNonEmpty (values : List String) : List String :=
  (values.map pyStrip).filter (· ≠ "")

/-- Candidate filter of the sequential-number comprehension:
`v.replace(".", "").replace("-", "").isdigit()`. -/
def seqCandFilter (v : String) : Bool := pyIsDigit (dropDotsDashes v)

/-- `int(float(v))` applied across a list, failing as a whole when any
element fails (a raised `ValueError` aborts a whole comprehension). -/
def parseAllInts : List String → Option (List Int)
  | [] => some []
  | v :: t =>
    match pyIntOfFloat v with
    | none => none
    | some n => (parseAllInts t).map (n :: ·)

/-- The comprehension `[int(float(v)) for v in non_empty if ...isdigit()]`:
`none` models the `ValueError` escape (e.g. `"1-2"`), which skips the whole
sequential-id check. -/
def colParsedNums (values : List String) : Option (List Int) :=
  parseAllInts ((colNonEmpty values).filter seqCandFilter)

/-- `all(nums[i] == nums[i-1] + 1)` over adjacent pairs. -/
def isConsecutive : List Int → Bool
  | [] => true
  | [_] => true
  | a :: b :: t => (b = a + 1) && isConsecutive (b :: t)

/-- Number of adjacent pairs that are consecutive-by-one. -/
def consecCount : List Int → Nat
  | [] => 0
  | [_] => 0
  | a :: b :: t => (if b = a + 1 then 1 else 0) + consecCount (b :: t)

def statusAnalysisVocab : List String :=
  ["todo", "done", "in progress", "complete", "pending", "blocked", "open", "closed"]

/-- The sequential-id guard of `analyze_column_patterns`: at least 3 parsed
integers, strictly more than 80% of the nonempty samples parseable, and
every adjacent parsed pair consecutive-by-one (false when the comprehension
raises). -/
def seqHitCheck (values : List String) : Bool :=
  match colParsedNums values with
  | some nums =>
    3 ≤ nums.length && 4 * (colNonEmpty values).length < 5 * nums.length &&
    isConsecutive nums
  | none => false

/-- Embeds the per-column body of `analyze_column_patterns` on the sampled
(not-`None`) values of one column. -/
def analyzeColumn (values : List String) : ColAnalysis :=
  if values = [] then ⟨"empty", (1, 1), none, none, none⟩
  else
    let non_empty := colNonEmpty values
    if non_empty = [] then ⟨"empty", (1, 1), none, none, none⟩
    else
      let n := non_empty.length
      let lenSum := (non_empty.map (·.data.length)).sum
      let distinct := non_empty.dedup.length
      if seqHitCheck values then
        ⟨"sequential_id", (95, 100), some (((colParsedNums values).getD []).take 5), none, none⟩
      else
        let statusMatches := non_empty.countP (fun v => statusAnalysisVocab.contains (pyLower v))
        if 2 * statusMatches > n then ⟨"status", (statusMatches, n), none, none, none⟩
        else
          let nameMatches := non_empty.countP isPersonName
          if 2 * nameMatches > n then ⟨"person_name", (nameMatches, n), none, none, none⟩
          else
            let timeMatches := non_empty.countP (fun v => numberUnitMatch estimateUnits (pyLower v))
            if 5 * timeMatches > 2 * n then ⟨"time_estimate", (timeMatches, n), none, none, none⟩
            else if 10 * n < lenSum ∧ lenSum < 150 * n ∧ 10 * distinct > 7 * n then
              ⟨"title_candidate", (4 * distinct, 5 * n), none, some (lenSum, n), none⟩
            else if lenSum > 100 * n then
              ⟨"description_candidate", (8, 10), none, some (lenSum, n), none⟩
            else
              ⟨"text", (1, 2), none, some (lenSum, n), some (distinct, n)⟩

/-- Embeds `analyze_column_patterns(headers, rows)` (values sampled from the
first 30 rows, skipping absent/`None` cells). -/
def analyze_column_patterns (headers : List String) (rows : List StructRow) :
    List (String × ColAnalysis) :=
  headers.map (fun h => (h, analyzeColumn ((rows.take 30).filterMap (fun r => rowGet r h))))

/-! ## Hierarchy detection -/

structure HierarchyInfo where
  is_hierarchical : Bool
  id_column : Option String
  parent_column : Option String
  level_indicator : Option String
  hierarchy_pattern : Option String
deriving DecidableEq

def emptyHierarchy : HierarchyInfo := ⟨false, none, none, none, none⟩

/-- Check 1 of `detect_hierarchical_structure`: a column whose integer
values are at least half pairwise consecutive (a parse failure inside the
comprehension aborts the check for that column). -/
def seqIdColHit (rows : List StructRow) (h : String) : Bool :=
  let values := (rows.take 20).filterMap (fun r => rowGet r h)
  if values = [] then false
  else
    match parseAllInts (values.filter (fun v => pyStrip v ≠ "")) with
    | none => false
    | some l => 3 ≤ l.length && l.length ≤ 2 * consecCount l

def parentPatterns : List String :=
  ["parent", "parent_id", "parent id", "parent task", "depends on", "subtask of"]

/-- Check 3 of `detect_hierarchical_structure`: a title-like column with at
least 3 indented values among the first 20 rows. -/
def indentColHit (rows : List StructRow) (h : String) : Bool :=
  (pyIn "task" (pyLower h) || pyIn "title" (pyLower h) || pyIn "name" (pyLower h)) &&
  3 ≤ ((rows.take 20).map (fun r => pyStrGetD r h "")).countP
        (fun v => pyStartsWith "  " v || pyStartsWith "-" v || pyStartsWith "•" v)

/-- Check 4 of `detect_hierarchical_structure`: a column with at least 5
dot-numbered values among the first 30 rows. -/
def numberedColHit (rows : List StructRow) (h : String) : Bool :=
  5 ≤ ((rows.take 30).map (fun r => pyStrGetD r h "")).countP (fun v => isNumberedId (pyStrip v))

/-- Embeds `detect_hierarchical_structure(rows, headers)`: the four checks
run in order; check 2 overwrites `parent_column` for every matching header
(last match wins), checks 3 and 4 stop at the first matching header, and
check 4 only fills `id_column` when check 1 left it unset. -/
def detect_hierarchical_structure (rows : List StructRow) (headers : List String) :
    HierarchyInfo :=
  if rows = [] ∨ headers = [] then emptyHierarchy
  else
    let s1 : HierarchyInfo := { emptyHierarchy with id_column := headers.find? (seqIdColHit rows) }
    let s2 := headers.foldl (fun st h =>
      if parentPatterns.any (fun p => pyIn p (pyLower h)) then
        { st with parent_column := some h, is_hierarchical := true }
      else st) s1
    let s3 := if (headers.find? (indentColHit rows)).isSome then
        { s2 with is_hierarchical := true, level_indicator := some "indentation" }
      else s2
    match headers.find? (numberedColHit rows) with
    | some h =>
      { s3 with is_hierarchical := true, hierarchy_pattern := some "numbered",
                id_column := if s3.id_column.isSome then s3.id_column else some h }
    | none => s3

/-! ## Adjacent content pair detection -/

structure AdjPair where
  id_column : String
  content_column : String
  pattern : String
  confidence : Frac
deriving DecidableEq

/-- Embeds `detect_adjacent_content_columns(headers, rows, data_types)`;
the `data_types` argument of the source is unused in its body and omitted. -/
def detect_adjacent_content_columns (headers : List String) (rows : List StructRow) :
    List AdjPair :=
  (headers.zip headers.tail).filterMap (fun p =>
    let col1 := (rows.take 15).filterMap (fun r => truthyCell r p.1)
    let col2 := (rows.take 15).filterMap (fun r => truthyCell r p.2)
    if col1 = [] ∨ col2 = [] then none
    else
      let s1 := (col1.map (·.data.length)).sum
      let n1 := col1.length
      let s2 := (col2.map (·.data.length)).sum
      let n2 := col2.length
      let col1Numeric := col1.all (fun v =>
        if pyStrip v = "" then true else pyIsDigit (dropDotsDashes v))
      if col1Numeric ∧ s1 < 10 * n1 ∧ s2 > 20 * n2 then
        some ⟨p.1, p.2, "id_description", (9, 10)⟩
      else if s1 < 5 * n1 ∧ s2 > 30 * n2 then
        some ⟨p.1, p.2, "prefix_content", (7, 10)⟩
      else none)

/-! ## Field mapping and smart title generation -/

structure Mapping where
  title : Option String := none
  description : Option String := none
  priority : Option String := none
  story_points : Option String := none
  assignee : Option String := none
  due_date : Option String := none
  status : Option String := none
  labels : Option String := none
  start_date : Option String := none
  estimate : Option String := none
deriving DecidableEq

/-- Embeds `smart_generate_title(row, mapping, adjacent_pairs)`: when the
mapped title is numeric or very short, recover a title from a matching
adjacent content column, else from the first sentence of the description;
every returned path truncates to 200 characters. -/
def smart_generate_title (row : StructRow) (m : Mapping) (pairs : List AdjPair) :
    Option String :=
  match truthyOpt m.title with
  | none => none
  | some c =>
    match truthyCell row c with
    | none => none
    | some tv =>
      let ts := pyStrip tv
      if pyIsDigit ts ∨ ts.data.length ≤ 3 then
        match pairs.findSome? (fun p =>
            if p.id_column = c then (truthyCell row p.content_column).map
              (fun ct => pyTake (pyStrip ct) 200)
            else none) with
        | some t => some t
        | none =>
          match (truthyOpt m.description).bind (fun dc => truthyCell row dc) with
          | some d =>
            let fs := (pySplit '.' (pyStrip d)).headD ""
            if 10 < fs.data.length then some (pyTake fs 200) else some (pyTake ts 200)
          | none => some (pyTake ts 200)
      else some (pyTake ts 200)

/-! ## Smart column mapping detection (`smart_detect_column_mapping`) -/

/-- Strict `>` on exact fractions by cross-multiplication. -/
def fracGt (a b : Frac) : Bool := a.1 * b.2 > b.1 * a.2

/-- Strict `frac > k` for a natural bound. -/
def fracGtNat (a : Frac) (k : Nat) : Bool := a.1 > k * a.2

/-- Python dict insertion (`{h.lower().strip(): h for h in headers}`):
a repeated key keeps its first position but takes the latest value. -/
def dictInsert (d : List (String × String)) (k v : String) : List (String × String) :=
  if d.any (fun p => p.1 = k) then d.map (fun p => if p.1 = k then (k, v) else p)
  else d ++ [(k, v)]

def headersLowerDict (headers : List String) : List (String × String) :=
  headers.foldl (fun d h => dictInsert d (pyLower (pyStrip h)) h) []

/-- The nested pattern loops: for each pattern in order, the first header
whose lowered name contains it (and passes the per-field filter) wins. -/
def findByPatterns (pats : List String) (dict : List (String × String))
    (keep : String × String → Bool) : Option String :=
  pats.findSome? (fun pat => (dict.find? (fun p => pyIn pat p.1 && keep p)).map (·.2))

def titlePatterns : List String :=
  ["title", "name", "task", "item", "issue", "ticket", "summary", "subject",
   "todo", "card", "work item"]

def descPatterns : List String :=
  ["description", "desc", "detail", "details", "body", "content", "notes",
   "note", "comment", "remarks"]

def prioPatterns : List String :=
  ["priority", "prio", "urgency", "importance", "severity", "p0", "p1", "p2", "level"]

def pointsPatterns : List String :=
  ["point", "points", "story_point", "estimate", "effort", "size", "sp",
   "complexity", "hrs", "hours", "plan"]

def assigneePatterns : List String :=
  ["assignee", "assigned", "owner", "responsible", "user", "person", "member", "resource"]

def statusPatterns : List String :=
  ["status", "state", "stage", "column", "progress", "phase"]

def startPatterns : List String := ["start", "begin", "created"]

def endPatterns : List String :=
  ["due", "deadline", "end", "target", "finish", "complete by"]

def labelPatterns : List String :=
  ["label", "tag", "category", "type", "kind", "group", "epic", "theme"]

def priorityContentVocab : List String :=
  ["P0", "P1", "P2", "P3", "P4", "HIGH", "MEDIUM", "LOW", "CRITICAL", "URGENT", "NORMAL"]

def fibLike : List Int := [1, 2, 3, 5, 8, 13, 21]

/-- Title method 2: best `title_candidate` by strictly increasing
confidence (first seen maximum wins, starting from 0). -/
def bestTitleCandidate (ca : List (String × ColAnalysis)) : Option String :=
  (ca.foldl (fun acc p =>
      if p.2.type = "title_candidate" ∧ fracGt p.2.confidence acc.2 = true then
        (some p.1, p.2.confidence)
      else acc)
    ((none : Option String), ((0, 1) : Frac))).1

/-- Title method 3: first text column whose truthy sample has average
length strictly between 5 and 200 and uniqueness ratio above 0.7. -/
def titleMethod3 (headers : List String) (rows : List StructRow)
    (dt : List (String × String)) : Option String :=
  headers.find? (fun h =>
    dt.lookup h = some "text" &&
    (let sample := (rows.take 15).filterMap (fun r => truthyCell r h)
     sample ≠ [] &&
     (let s := (sample.map (·.data.length)).sum
      let n := sample.length
      5 * n < s && s < 200 * n && 10 * sample.dedup.length > 7 * n)))

/-- Description fallback: unmapped column of greatest average length
(strictly above 30) among description/text analysed columns. -/
def descLongest (headers : List String) (titleOpt : Option String)
    (ca : List (String × ColAnalysis)) : Option String :=
  (headers.foldl (fun acc h =>
    if titleOpt = some h then acc
    else
      match ca.lookup h with
      | none => acc
      | some a =>
        let al := a.avg_length.getD (0, 1)
        if (a.type = "description_candidate" ∨ a.type = "text") ∧
            fracGt al acc.2 = true ∧ fracGtNat al 30 = true then
          (some h, al)
        else acc) ((none : Option String), ((0, 1) : Frac))).1

/-- Priority content fallback: a column whose truthy sample is more than
40% priority keywords after upper-stripping. -/
def priorityContentCol (headers : List String) (rows : List StructRow) : Option String :=
  headers.find? (fun h =>
    let sample := ((rows.take 15).filterMap (fun r => truthyCell r h)).map
      (fun v => pyUpper (pyStrip v))
    sample ≠ [] && 5 * (sample.countP (priorityContentVocab.contains ·)) > 2 * sample.length)

/-- Fibonacci-like story point fallback: a number column whose parseable
sampled values (with the `row.get(header, 0)` default) all fall in the
estimation range. -/
def fibPointsCol (headers : List String) (rows : List StructRow)
    (dt : List (String × String)) : Option String :=
  headers.find? (fun h =>
    dt.lookup h = some "number" &&
    (let sv := (rows.take 15).filterMap (fun r => pyIntOfFloat (pyStrGetD r h "0"))
     sv ≠ [] && sv.all (fun v => fibLike.contains v || (0 ≤ v && v ≤ 21))))

/-- The fixed per-field confidence weights summed over resolved fields
(lines 649-679 of the source). -/
def mappingConfidence (m : Mapping) : Nat :=
  (if (truthyOpt m.title).isSome then 40 else 0) +
  (if (truthyOpt m.description).isSome then 15 else 0) +
  (if (truthyOpt m.priority).isSome then 10 else 0) +
  (if (truthyOpt m.story_points).isSome then 10 else 0) +
  (if (truthyOpt m.status).isSome then 10 else 0) +
  (if (truthyOpt m.due_date).isSome then 5 else 0) +
  (if (truthyOpt m.assignee).isSome then 5 else 0) +
  (if (truthyOpt m.start_date).isSome then 3 else 0) +
  (if (truthyOpt m.labels).isSome then 2 else 0)

def confidenceDetails (m : Mapping) : List (String × String) :=
  (if (truthyOpt m.title).isSome then [("title", "found")] else []) ++
  (if (truthyOpt m.description).isSome then [("description", "found")] else []) ++
  (if (truthyOpt m.priority).isSome then [("priority", "found")] else []) ++
  (if (truthyOpt m.story_points).isSome then [("story_points", "found")] else []) ++
  (if (truthyOpt m.status).isSome then [("status", "found")] else []) ++
  (if (truthyOpt m.due_date).isSome then [("due_date", "found")] else []) ++
  (if (truthyOpt m.assignee).isSome then [("assignee", "found")] else []) ++
  (if (truthyOpt m.start_date).isSome then [("start_date", "found")] else []) ++
  (if (truthyOpt m.labels).isSome then [("labels", "found")] else [])

/-- Embeds `smart_detect_column_mapping(headers, rows, data_types,
column_analysis)` (the analysis is always supplied by the callers). -/
def smart_detect_column_mapping (headers : List String) (rows : List StructRow)
    (dt : List (String × String)) (ca : List (String × ColAnalysis)) :
    Mapping × Nat × List (String × String) :=
  let hl := headersLowerDict headers
  let title :=
    match findByPatterns titlePatterns hl (fun p => !(pyIn "description" p.1)) with
    | some h => some h
    | none =>
      match bestTitleCandidate ca with
      | some h => some h
      | none => titleMethod3 headers rows dt
  let descr :=
    match findByPatterns descPatterns hl (fun p => title ≠ some p.2) with
    | some h => some h
    | none => descLongest headers title ca
  let prio :=
    match findByPatterns prioPatterns hl (fun _ => true) with
    | some h => some h
    | none => priorityContentCol headers rows
  let pointsEst : Option String × Option String :=
    match findByPatterns pointsPatterns hl (fun _ => true) with
    | some h => (some h, none)
    | none =>
      match (ca.find? (fun p => p.2.type = "time_estimate")).map (·.1) with
      | some h => (some h, some h)
      | none => (fibPointsCol headers rows dt, none)
  let assignee :=
    match findByPatterns assigneePatterns hl (fun _ => true) with
    | some h => some h
    | none => (ca.find? (fun p => p.2.type = "person_name")).map (·.1)
  let status :=
    match findByPatterns statusPatterns hl (fun _ => true) with
    | some h => some h
    | none => (ca.find? (fun p => p.2.type = "status")).map (·.1)
  let due := findByPatterns endPatterns hl (fun _ => true)
  let start := findByPatterns startPatterns hl (fun p => due ≠ some p.2)
  let labels := findByPatterns labelPatterns hl (fun _ => true)
  let m : Mapping :=
    ⟨title, descr, prio, pointsEst.1, assignee, due, status, labels, start, pointsEst.2⟩
  (m, mappingConfidence m, confidenceDetails m)

/-! ## Per-column data type majority (upload lines 760-768) -/

/-- Majority vote with ties resolved toward the earliest occurrence.
CPython iterates a `set` here, whose order is implementation defined;
this model fixes first-occurrence order (no analysed property depends on
a tied vote). -/
def majorityType (ts : List String) : String :=
  match ts.dedup with
  | [] => ""
  | c0 :: rest => rest.foldl (fun best c => if ts.count c > ts.count best then c else best) c0

def computeDataTypes (headers : List String) (rows : List StructRow) :
    List (String × String) :=
  headers.map (fun h =>
    let sample := (rows.take 15).filterMap (fun r => truthyCell r h)
    let types := sample.map (fun v => detect_data_type (some v))
    let net := types.filter (· ≠ "empty")
    (h, if net = [] then "text" else majorityType net))

/-! ## Task extraction and normalization (`process_import` loop body) -/

structure Task where
  title : String
  description : String
  priority : Option String
  story_points : Option Int
  status : Option String
  assignee : Option String
  due_date : Option String
  start_date : Option String
  labels : List String
  parent_id : Option String
  hierarchy_level : Nat
  original_row : Nat
deriving DecidableEq

/-- The priority bucket chain of `process_import` on the upper-stripped
token (lines 949-961). -/
def normalizePriorityCore (p : String) : Option String :=
  if ["P0", "P1", "P2", "P3", "P4"].contains p then some p
  else if ["CRITICAL", "URGENT", "HIGHEST"].contains p then some "P0"
  else if p = "HIGH" then some "P1"
  else if ["MEDIUM", "NORMAL", "MED"].contains p then some "P2"
  else if p = "LOW" then some "P3"
  else if ["LOWEST", "MINOR"].contains p then some "P4"
  else none

/-- Priority normalization applied to a raw cell value. -/
def normalizePriority (v : String) : Option String :=
  normalizePriorityCore (pyUpper (pyStrip v))

/-- Story point parsing: `re.match(r"^(\d+\.?\d*)\s*(pts?|points?|h|hr|hrs|hours?)?", s)`
on the lower-stripped text, then `int(float(group(1)))`.  The regex is
unanchored at the end, so only a leading number is required; flooring a
nonnegative decimal keeps just its integer digits. -/
def parseStoryPoints (v : String) : Option Int :=
  let s := pyLower (pyStrip v)
  let ip := (spanDigits s.data).1
  if ip = [] then none else some (natOfDigits ip)

/-- The adjacent-content fallback of the extraction loop (lines 900-905):
first pair whose content cell is truthy and nonblank after stripping. -/
def adjacentFallbackTitle (row : StructRow) (pairs : List AdjPair) : Option String :=
  pairs.findSome? (fun p =>
    match rowGet row p.content_column with
    | some c => if c ≠ "" ∧ pyStrip c ≠ "" then some (pyStrip c) else none
    | none => none)

/-- Python `not title or str(title).strip() == ""`. -/
def pyBlank : Option String → Bool
  | none => true
  | some s => s = "" || pyStrip s = ""

/-- The final blank check of the title chain (`if not title or
str(title).strip() == "": continue`, then `title_str = str(title).strip()`). -/
def finishTitle : Option String → Option String
  | none => none
  | some s => if pyStrip s = "" then none else some (pyStrip s)

/-- Title resolution of one extraction iteration: smart generation (or the
plain mapped lookup), then the adjacent-content fallback, then the blank
skip; the result is the stripped `title_str`, which is never empty. -/
def resolveTitle (row : StructRow) (m : Mapping) (pairs : List AdjPair) (ust : Bool) :
    Option String :=
  let t0 : Option String :=
    if ust then smart_generate_title row m pairs
    else (truthyOpt m.title).bind (fun c => rowGet row c)
  finishTitle (if pyBlank t0 then adjacentFallbackTitle row pairs else t0)

/-- Whether some cell of the row holds truthy, nonblank, non-numeric text
(the guard against stray numbering columns). -/
def rowHasContent (headers : List String) (row : StructRow) : Bool :=
  headers.any (fun h =>
    match rowGet row h with
    | some v => v ≠ "" && pyStrip v ≠ "" && !(pyIsDigit (pyStrip v))
    | none => false)

/-- The task record built for a surviving row with resolved title `ts`
(the field mapping part of the extraction loop). -/
def extractRowBody (m : Mapping) (hi : HierarchyInfo) (idx : Nat) (row : StructRow)
    (ts : String) : Task :=
  let descriptionV := match (truthyOpt m.description).bind (fun c => truthyCell row c) with
        | some d => pyTake (pyStrip d) 5000
        | none => ""
      let priorityV := match (truthyOpt m.priority).bind (fun c => truthyCell row c) with
        | some v => normalizePriority v
        | none => none
      let pointsV := match (truthyOpt m.story_points).bind (fun c => truthyCell row c) with
        | some v => parseStoryPoints v
        | none => none
      let statusV := ((truthyOpt m.status).bind (fun c => truthyCell row c)).map pyStrip
      let assigneeV := ((truthyOpt m.assignee).bind (fun c => truthyCell row c)).map pyStrip
      let dueV := ((truthyOpt m.due_date).bind (fun c => truthyCell row c)).map pyStrip
      let startV := ((truthyOpt m.start_date).bind (fun c => truthyCell row c)).map pyStrip
      let labelsV := match (truthyOpt m.labels).bind (fun c => truthyCell row c) with
        | some v =>
          let ls := pyStrip v
          if pyIn "," ls then ((pySplit ',' ls).map pyStrip).filter (· ≠ "")
          else if ls = "" then [] else [ls]
        | none => []
      let hp : Nat × Option String :=
        if hi.is_hierarchical then
          match truthyOpt hi.id_column with
          | some idc =>
            match truthyCell row idc with
            | some tid =>
              let tis := pyStrip tid
              if pyIn "." tis then
                let parts := pySplit '.' tis
                (parts.length - 1,
                 if 1 < parts.length then some (String.intercalate "." parts.dropLast) else none)
              else (0, none)
            | none => (0, none)
          | none => (0, none)
        else (0, none)
  { title := pyTake ts 500, description := descriptionV, priority := priorityV,
    story_points := pointsV, status := statusV, assignee := assigneeV,
    due_date := dueV, start_date := startV, labels := labelsV,
    parent_id := hp.2, hierarchy_level := hp.1, original_row := idx + 1 }

/-- One iteration of the extraction loop over `session["rows"]`;
`idx` is the 0-based row index, `none` means the row is skipped. -/
def extractRow (headers : List String) (m : Mapping) (pairs : List AdjPair)
    (hi : HierarchyInfo) (ust : Bool) (idx : Nat) (row : StructRow) : Option Task :=
  match resolveTitle row m pairs ust with
  | none => none
  | some ts =>
    if pyIsDigit ts ∧ ts.data.length ≤ 3 ∧ rowHasContent headers row = false then none
    else some (extractRowBody m hi idx row ts)

/-- The full extraction loop: ordered tasks from surviving rows.  (The
source also fills a `parent_task_map` dict, which is never read again and
has no observable effect.) -/
def extractTasks (headers : List String) (rows : List StructRow) (m : Mapping)
    (pairs : List AdjPair) (hi : HierarchyInfo) (ust : Bool) : List Task :=
  rows.enum.filterMap (fun p => extractRow headers m pairs hi ust p.1 p.2)

/-! ## Import sessions and endpoint operations -/

/-- The `structure` dict returned by upload and stored in the session. -/
structure StructureInfo where
  headers : List String
  data_types : List (String × String)
  row_count : Nat
  column_count : Nat
  header_row_detected : Nat
  column_analysis : List (String × ColAnalysis)
  hierarchy_detected : Bool
  hierarchy_info : HierarchyInfo
  adjacent_content_pairs : List AdjPair
deriving DecidableEq

/-- One entry of `import_sessions` (the Python key `"structure"` is the
field `structure_info`; `extracted_tasks`/`column_mapping`/`ai_*` are
absent until `process` runs, modelled as `none`). -/
structure Session where
  id : String
  project_id : String
  user_id : String
  file_path : String
  file_type : String
  original_filename : String
  file_size : Nat
  raw_rows : List (List Cell)
  header_row_idx : Nat
  headers : List String
  rows : List StructRow
  structure_info : StructureInfo
  smart_mapping : Mapping
  mapping_confidence : Nat
  confidence_details : List (String × String)
  column_analysis : List (String × ColAnalysis)
  hierarchy_info : HierarchyInfo
  adjacent_pairs : List AdjPair
  status : String
  created_at : String
  extracted_tasks : Option (List Task) := none
  column_mapping : Option Mapping := none
  ai_suggestions : Option String := none
  ai_analysis : Option String := none
deriving DecidableEq

/-- The in-memory session store `import_sessions`. -/
abbrev Store := List (String × Session)

def storeGet (st : Store) (id : String) : Option Session := st.lookup id

def storeErase (st : Store) (id : String) : Store := st.filter (fun p => p.1 ≠ id)

structure FileMeta where
  project_id : String
  user_id : String
  file_path : String
  file_type : String
  original_filename : String
  file_size : Nat
deriving DecidableEq

/-- Outcome of the parsing part of `upload_file` (after the request-level
validations): the two structural aborts, or a created session. -/
inductive UploadResult where
  | emptyFile
  | noHeaders
  | ok (s : Session)
deriving DecidableEq

def UploadResult.isErr : UploadResult → Bool
  | .ok _ => false
  | _ => true

/-- Embeds `upload_file` from the parse of `raw_rows` onward (lines
729-828): empty-file and no-headers aborts, then the full detection
pipeline and creation of a `preview` session. -/
def uploadPipeline (raw : List (List Cell)) (id : String) (meta : FileMeta)
    (created : String) : UploadResult :=
  if raw = [] then .emptyFile
  else
    let hd := detect_header_row raw
    let hs := process_raw_to_structured raw hd.1
    if hs.1 = [] then .noHeaders
    else
      let headers := hs.1
      let rows := hs.2
      let ca := analyze_column_patterns headers rows
      let hi := detect_hierarchical_structure rows headers
      let ap := detect_adjacent_content_columns headers rows
      let dt := computeDataTypes headers rows
      let sd := smart_detect_column_mapping headers rows dt ca
      let si : StructureInfo :=
        ⟨headers, dt, rows.length, headers.length, hd.1 + 1, ca, hi.is_hierarchical, hi, ap⟩
      .ok { id := id, project_id := meta.project_id, user_id := meta.user_id,
            file_path := meta.file_path, file_type := meta.file_type,
            original_filename := meta.original_filename, file_size := meta.file_size,
            raw_rows := raw, header_row_idx := hd.1, headers := headers, rows := rows,
            structure_info := si, smart_mapping := sd.1, mapping_confidence := sd.2.1,
            confidence_details := sd.2.2, column_analysis := ca, hierarchy_info := hi,
            adjacent_pairs := ap, status := "preview", created_at := created }

/-- Upload against the session store: errors leave the store untouched. -/
def uploadOp (st : Store) (id : String) (meta : FileMeta) (created : String)
    (raw : List (List Cell)) : Store × UploadResult :=
  match uploadPipeline raw id meta created with
  | .ok s => ((id, s) :: st, .ok s)
  | e => (st, e)

inductive PreviewResult where
  | notFound
  | forbidden
  | ok (filename : String) (file_type : String) (structure_info : StructureInfo)
       (preview_rows : List StructRow)
deriving DecidableEq

/-- Embeds `get_preview`. -/
def previewOp (st : Store) (id uid : String) : PreviewResult :=
  match storeGet st id with
  | none => .notFound
  | some s =>
    if s.user_id ≠ uid then .forbidden
    else .ok s.original_filename s.file_type s.structure_info (s.rows.take 20)

/-- The response payload of `process_import`. -/
structure ProcessResp where
  task_count : Nat
  tasks : List Task
  ai_suggestions : Option String
  ai_analysis : Option String
  column_mapping : Mapping
  hierarchy_detected : Bool
  tasks_with_description : Nat
  tasks_with_priority : Nat
  tasks_with_points : Nat
  tasks_with_assignee : Nat
  hierarchical_tasks : Nat
deriving DecidableEq

/-- Embeds `process_import` on a fetched session: `callerMapping = none`
models a falsy `column_mapping` request field (falling back to the
session's smart mapping), and the two `ai*` inputs model the outcome of
the optional external enhancement calls (`none` when the service is
disabled or fails). -/
def processOp (s : Session) (callerMapping : Option Mapping) (use_ai use_smart_titles : Bool)
    (aiSuggest aiStructural : Option String) : Session × ProcessResp :=
  let cm := callerMapping.getD s.smart_mapping
  let tasks := extractTasks s.headers s.rows cm s.adjacent_pairs s.hierarchy_info use_smart_titles
  let aiS := if use_ai ∧ tasks ≠ [] then aiSuggest else none
  let aiA := if use_ai ∧ tasks ≠ [] then aiStructural else none
  ({ s with extracted_tasks := some tasks, column_mapping := some cm,
            ai_suggestions := aiS, ai_analysis := aiA, status := "processed" },
   { task_count := tasks.length, tasks := tasks.take 75,
     ai_suggestions := aiS, ai_analysis := aiA, column_mapping := cm,
     hierarchy_detected := s.hierarchy_info.is_hierarchical,
     tasks_with_description := tasks.countP (fun t => t.description ≠ ""),
     tasks_with_priority := tasks.countP (fun t => (truthyOpt t.priority).isSome),
     tasks_with_points := tasks.countP (fun t =>
       match t.story_points with
       | some v => v ≠ 0
       | none => false),
     tasks_with_assignee := tasks.countP (fun t => (truthyOpt t.assignee).isSome),
     hierarchical_tasks := tasks.countP (fun t => 0 < t.hierarchy_level) })

structure Card where
  column_id : String
  title : String
  description : Option String
  priority : Option String
  story_points : Option Int
  position : Int
  created_by : String
deriving DecidableEq

inductive ConfirmResult where
  | notFound
  | forbidden
  | noBoard
  | noColumn
  | ok (created : List Card) (remaining : Store)
deriving DecidableEq

/-- Card creation loop of `confirm_import`: untitled tasks are skipped but
still advance the enumeration index used for positions. -/
def cardsFromTasks (tasks : List Task) (column_id uid : String) (maxPos : Int) : List Card :=
  tasks.enum.filterMap (fun p =>
    if p.2.title = "" then none
    else some { column_id := column_id, title := pyTake p.2.title 500,
                description := if p.2.description = "" then none
                  else some (pyTake p.2.description 5000),
                priority := p.2.priority, story_points := p.2.story_points,
                position := maxPos + p.1 + 1, created_by := uid })

/-- Embeds `confirm_import`: `callerTasks = none` models an absent `tasks`
request field (defaulting to the session's extracted tasks, `[]` when
`process` never ran); `dbFirstBoard`/`dbFirstColumn` model the database
fallback lookups for the board and its first column.  On success the
created cards are returned and the session is destroyed. -/
def confirmOp (st : Store) (id uid : String) (callerTasks : Option (List Task))
    (boardId columnId : Option String) (dbFirstBoard : Option String)
    (dbFirstColumn : String → Option String) (maxPos : Int) : ConfirmResult :=
  match storeGet st id with
  | none => .notFound
  | some s =>
    if s.user_id ≠ uid then .forbidden
    else
      let approved := callerTasks.getD (s.extracted_tasks.getD [])
      match (truthyOpt boardId).orElse (fun _ => dbFirstBoard) with
      | none => .noBoard
      | some bid =>
        match (truthyOpt columnId).orElse (fun _ => dbFirstColumn bid) with
        | none => .noColumn
        | some cid => .ok (cardsFromTasks approved cid uid maxPos) (storeErase st id)

/-! ## Helper lemmas -/

theorem finishTitle_some_ne {o : Option String} {ts : String}
    (h : finishTitle o = some ts) : ts ≠ "" := by
  match o with
  | none => exact absurd h (by simp [finishTitle])
  | some s =>
    replace h : (if pyStrip s = "" then none else some (pyStrip s)) = some ts := h
    by_cases hs : pyStrip s = ""
    · rw [if_pos hs] at h; cases h
    · rw [if_neg hs] at h
      injection h with h
      subst h
      exact hs

theorem resolveTitle_some_ne {row : StructRow} {m : Mapping} {pairs : List AdjPair}
    {ust : Bool} {ts : String} (h : resolveTitle row m pairs ust = some ts) : ts ≠ "" :=
  finishTitle_some_ne (h := h)

theorem extractRow_title {headers : List String} {m : Mapping} {pairs : List AdjPair}
    {hi : HierarchyInfo} {ust : Bool} {idx : Nat} {row : StructRow} {t : Task}
    (h : extractRow headers m pairs hi ust idx row = some t) :
    ∃ ts, resolveTitle row m pairs ust = some ts ∧ t.title = pyTake ts 500 := by
  unfold extractRow at h
  cases hr : resolveTitle row m pairs ust with
  | none => rw [hr] at h; cases h
  | some ts =>
    rw [hr] at h
    replace h : (if pyIsDigit ts ∧ ts.data.length ≤ 3 ∧ rowHasContent headers row = false
        then none else some (extractRowBody m hi idx row ts)) = some t := h
    by_cases hg : (pyIsDigit ts ∧ ts.data.length ≤ 3 ∧ rowHasContent headers row = false)
    · rw [if_pos hg] at h; cases h
    · rw [if_neg hg] at h
      injection h with h
      exact ⟨ts, rfl, by rw [← h]; rfl⟩

theorem parseAllInts_length {l : List String} {l' : List Int}
    (h : parseAllInts l = some l') : l'.length = l.length := by
  induction l generalizing l' with
  | nil => cases h; rfl
  | cons v t ih =>
    unfold parseAllInts at h
    cases hv : pyIntOfFloat v with
    | none => rw [hv] at h; cases h
    | some n =>
      rw [hv] at h
      cases ht : parseAllInts t with
      | none => rw [ht] at h; cases h
      | some t' =>
        rw [ht] at h
        injection h with h
        subst h
        simp [ih ht]

theorem seqHitCheck_nonempty {values : List String}
    (h : seqHitCheck values = true) : colNonEmpty values ≠ [] := by
  intro hne
  unfold seqHitCheck colParsedNums at h
  rw [hne] at h
  simp only [List.filter_nil] at h
  replace h : (3 ≤ ([] : List Int).length && 4 * (colNonEmpty values).length ≤ 0 &&
      isConsecutive []) = true := by
    rw [hne]
    exact h
  simp at h

theorem analyze_type_seq_iff (values : List String) :
    (analyzeColumn values).type = "sequential_id" ↔ seqHitCheck values = true := by
  constructor
  · intro h
    by_cases hv : values = []
    · subst hv
      exact absurd h (by decide)
    by_cases hne : colNonEmpty values = []
    · have he : (analyzeColumn values).type = "empty" := by
        simp [analyzeColumn, hv, hne]
      rw [he] at h
      exact absurd h (by decide)
    by_cases h3 : seqHitCheck values = true
    · exact h3
    · have h3' : seqHitCheck values = false := by simpa using h3
      have hno : (analyzeColumn values).type ≠ "sequential_id" := by
        simp only [analyzeColumn, if_neg hv, if_neg hne, h3', Bool.false_eq_true, if_false]
        split_ifs <;> simp
      exact absurd h hno
  · intro h
    have hne := seqHitCheck_nonempty h
    have hv : values ≠ [] := by
      intro hv
      exact hne (by rw [hv]; rfl)
    simp [analyzeColumn, hv, hne, h]

theorem seqHitCheck_iff (values : List String) :
    seqHitCheck values = true ↔
      ∃ nums, colParsedNums values = some nums ∧ 3 ≤ nums.length ∧
        4 * (colNonEmpty values).length < 5 * nums.length ∧ isConsecutive nums = true := by
  unfold seqHitCheck
  cases h : colParsedNums values with
  | none => simp
  | some nums =>
    simp only [Bool.and_eq_true, decide_eq_true_eq]
    constructor
    · rintro ⟨⟨h1, h2⟩, h3⟩
      exact ⟨nums, rfl, h1, h2, h3⟩
    · rintro ⟨nums', heq, h1, h2, h3⟩
      cases heq
      exact ⟨⟨h1, h2⟩, h3⟩

theorem scoresFrom_length (rows : List (List Cell)) (i : Nat) :
    (scoresFrom rows i).length = rows.length := by
  induction rows generalizing i with
  | nil => rfl
  | cons r t ih => simp [scoresFrom, ih]

theorem bestFrom_all_le (rows : List (List Cell)) (i bi : Nat) (bs : Int)
    (hall : ∀ x ∈ scoresFrom rows i, x ≤ bs) : bestFrom rows i bi bs = (bi, bs) := by
  induction rows generalizing i bi bs with
  | nil => rfl
  | cons r t ih =>
    have hr : calculate_header_score r i ≤ bs := hall _ (by simp [scoresFrom])
    simp only [bestFrom]
    rw [if_neg (not_lt.mpr hr)]
    exact ih (i + 1) bi bs (fun x hx =>
      hall x (by simp only [scoresFrom, List.mem_cons]; right; exact hx))

theorem bestFrom_first_max (rows : List (List Cell)) (i bi : Nat) (bs : Int)
    (hex : ∃ x ∈ scoresFrom rows i, bs < x) :
    ∃ j, j < rows.length ∧
      bestFrom rows i bi bs = (i + j, (scoresFrom rows i).getD j 0) ∧
      bs < (scoresFrom rows i).getD j 0 ∧
      (∀ k, k < j → (scoresFrom rows i).getD k 0 < (scoresFrom rows i).getD j 0) ∧
      (∀ k, k < rows.length → (scoresFrom rows i).getD k 0 ≤ (scoresFrom rows i).getD j 0) := by
  induction rows generalizing i bi bs with
  | nil => simp [scoresFrom] at hex
  | cons r t ih =>
    have hcons : scoresFrom (r :: t) i = calculate_header_score r i :: scoresFrom t (i + 1) := rfl
    by_cases hlt : bs < calculate_header_score r i
    · by_cases hall : ∀ x ∈ scoresFrom t (i + 1), x ≤ calculate_header_score r i
      · refine ⟨0, by simp, ?_, ?_, ?_, ?_⟩
        · simp only [bestFrom]
          rw [if_pos hlt, bestFrom_all_le t (i + 1) i _ hall]
          simp [hcons]
        · simpa [hcons] using hlt
        · intro k hk; omega
        · intro k hk
          rw [hcons]
          cases k with
          | zero => simp
          | succ k2 =>
            simp only [List.getD_cons_succ, List.getD_cons_zero]
            have hk2 : k2 < (scoresFrom t (i + 1)).length := by
              rw [scoresFrom_length]; simpa [List.length_cons] using hk
            rw [List.getD_eq_getElem _ _ hk2]
            exact hall _ (List.getElem_mem hk2)
      · push_neg at hall
        obtain ⟨x, hx, hxgt⟩ := hall
        obtain ⟨j2, hj2, heq, hgt, hfirst, hmax⟩ :=
          ih (i + 1) i (calculate_header_score r i) ⟨x, hx, hxgt⟩
        refine ⟨j2 + 1, by simpa [List.length_cons] using hj2, ?_, ?_, ?_, ?_⟩
        · simp only [bestFrom]
          rw [if_pos hlt, heq, hcons]
          simp only [List.getD_cons_succ]
          have harith : i + 1 + j2 = i + (j2 + 1) := by omega
          rw [harith]
        · rw [hcons]; simpa [List.getD_cons_succ] using lt_trans hlt hgt
        · intro k hk
          rw [hcons]
          cases k with
          | zero => simpa [List.getD_cons_succ] using hgt
          | succ k2 =>
            simp only [List.getD_cons_succ]
            exact hfirst k2 (by omega)
        · intro k hk
          rw [hcons]
          cases k with
          | zero => simpa [List.getD_cons_succ] using le_of_lt hgt
          | succ k2 =>
            simp only [List.getD_cons_succ]
            exact hmax k2 (by simpa [List.length_cons] using hk)
    · have hex2 : ∃ x ∈ scoresFrom t (i + 1), bs < x := by
        obtain ⟨x, hx, hbs⟩ := hex
        rw [hcons] at hx
        rcases List.mem_cons.mp hx with h0 | h0
        · subst h0; exact absurd hbs hlt
        · exact ⟨x, h0, hbs⟩
      obtain ⟨j2, hj2, heq, hgt, hfirst, hmax⟩ := ih (i + 1) bi bs hex2
      have hle : calculate_header_score r i ≤ bs := not_lt.mp hlt
      refine ⟨j2 + 1, by simpa [List.length_cons] using hj2, ?_, ?_, ?_, ?_⟩
      · simp only [bestFrom]
        rw [if_neg hlt, heq, hcons]
        simp only [List.getD_cons_succ]
        have harith : i + 1 + j2 = i + (j2 + 1) := by omega
        rw [harith]
      · rw [hcons]; simpa [List.getD_cons_succ] using hgt
      · intro k hk
        rw [hcons]
        cases k with
        | zero =>
          simp only [List.getD_cons_succ, List.getD_cons_zero]
          omega
        | succ k2 =>
          simp only [List.getD_cons_succ]
          exact hfirst k2 (by omega)
      · intro k hk
        rw [hcons]
        cases k with
        | zero =>
          simp only [List.getD_cons_succ, List.getD_cons_zero]
          omega
        | succ k2 =>
          simp only [List.getD_cons_succ]
          exact hmax k2 (by simpa [List.length_cons] using hk)

theorem bestFrom_fst_bound (rows : List (List Cell)) (i bi : Nat) (bs : Int) :
    (bestFrom rows i bi bs).1 = bi ∨ (bestFrom rows i bi bs).1 < i + rows.length := by
  induction rows generalizing i bi bs with
  | nil => left; rfl
  | cons r t ih =>
    simp only [bestFrom]
    by_cases h : bs < calculate_header_score r i
    · rw [if_pos h]
      rcases ih (i + 1) i (calculate_header_score r i) with h1 | h1
      · right; rw [h1]; simp only [List.length_cons]; omega
      · right; simp only [List.length_cons]; omega
    · rw [if_neg h]
      rcases ih (i + 1) bi bs with h1 | h1
      · left; exact h1
      · right; simp only [List.length_cons]; omega

theorem detect_header_row_idx_lt (raw : List (List Cell)) (h : raw ≠ []) :
    (detect_header_row raw).1 < raw.length := by
  unfold detect_header_row
  rw [if_neg (by simpa using h)]
  have hlen : (raw.take 15).length ≤ raw.length := by
    rw [List.length_take]; omega
  have hpos : 0 < raw.length := List.length_pos.mpr h
  rcases bestFrom_fst_bound (raw.take 15) 0 0 (-1) with h1 | h1
  · simpa [h1] using hpos
  · simp only []
    omega

theorem synthHeaders_eq_nil_iff (r : List Cell) : synthHeaders r = [] ↔ r = [] := by
  cases r <;> simp [synthHeaders]

theorem ite_weight_bound (p : Prop) [Decidable p] (w : Nat) : (if p then w else 0) ≤ w := by
  split <;> omega

theorem ite_weight_mono (p q : Prop) [Decidable p] [Decidable q] (w : Nat) (h : p → q) :
    (if p then w else 0) ≤ (if q then w else 0) := by
  by_cases hp : p
  · simp [hp, h hp]
  · simp [hp]

/-! ## Claim C1 — determinism of process -/

/-- C1: running `process` twice in immediate succession on the same session
with the same caller-supplied mapping (or the same fallback to the stored
smart mapping), the same flags, and any outcomes of the optional external
enhancement calls yields element-for-element identical extracted task
lists, both in the session state and in the response payload. -/
theorem process_deterministic (s : Session) (om : Option Mapping) (ua ust : Bool)
    (a1 a2 b1 b2 : Option String) :
    (processOp (processOp s om ua ust a1 a2).1 om ua ust b1 b2).1.extracted_tasks =
      (processOp s om ua ust a1 a2).1.extracted_tasks ∧
    (processOp (processOp s om ua ust a1 a2).1 om ua ust b1 b2).2.tasks =
      (processOp s om ua ust a1 a2).2.tasks ∧
    (processOp (processOp s om ua ust a1 a2).1 om ua ust b1 b2).2.task_count =
      (processOp s om ua ust a1 a2).2.task_count := by
  cases om <;> exact ⟨rfl, rfl, rfl⟩

/-! ## Claim C2 — empty table upload -/

/-- Session extractor of an upload outcome (used to inspect the created
session in the counterexample below). -/
def UploadResult.sessionOf : UploadResult → Option Session
  | .ok s => some s
  | _ => none

/-- A one-row table whose only cell is a blank string: zero non-blank rows. -/
def blankCellTable : List (List Cell) := [[some ""]]

def blankMeta : FileMeta := ⟨"p", "u", "f", "csv", "o.csv", 1⟩

/-- C2 counterexample: a table with zero non-blank rows does NOT fail
upload.  The blank row is chosen as header row, its blank cell is
synthesized to `Column 1`, and a preview session with zero structured rows
is created — contradicting the claim that such uploads abort with a
StructureError before a session exists. -/
theorem upload_blank_table_creates_session_counterexample :
    (blankCellTable.countP (fun r => !(rowIsBlank r)) = 0) ∧
    (uploadPipeline blankCellTable "imp2" blankMeta "t0").isErr = false ∧
    ((uploadPipeline blankCellTable "imp2" blankMeta "t0").sessionOf).map
      (fun s => (s.status, s.rows.length, s.headers)) = some ("preview", 0, ["Column 1"]) := by
  refine ⟨by decide, by decide, by decide⟩

/-- C2 amended: upload aborts before a session exists exactly when the raw
table has no rows at all (`File appears to be empty`) or the detected
header row has no cells (`Could not detect headers`); on such an abort the
store is unchanged and a preview of the would-be id returns not-found.  A
table whose rows are all blank but nonempty in width creates a session. -/
theorem upload_structure_failure_iff (raw : List (List Cell)) (st : Store)
    (id uid : String) (meta : FileMeta) (created : String)
    (hid : storeGet st id = none) :
    ((uploadOp st id meta created raw).2.isErr = true ↔
      (raw = [] ∨ raw.getD (detect_header_row raw).1 [] = [])) ∧
    ((uploadOp st id meta created raw).2.isErr = true →
      (uploadOp st id meta created raw).1 = st ∧
      previewOp (uploadOp st id meta created raw).1 id uid = .notFound) := by
  constructor
  · by_cases hraw : raw = []
    · subst hraw
      simp [uploadOp, uploadPipeline, UploadResult.isErr]
    · have hidx := detect_header_row_idx_lt raw hraw
      have hcond : (uploadPipeline raw id meta created).isErr = true ↔
          synthHeaders (raw.getD (detect_header_row raw).1 []) = [] := by
        unfold uploadPipeline
        rw [if_neg hraw]
        simp only [process_raw_to_structured,
          if_neg (by omega : ¬ raw.length ≤ (detect_header_row raw).1)]
        by_cases hh : synthHeaders (raw.getD (detect_header_row raw).1 []) = []
        · rw [if_pos hh]; exact iff_of_true rfl hh
        · rw [if_neg hh]; exact iff_of_false (by simp [UploadResult.isErr]) hh
      have hsame : (uploadOp st id meta created raw).2 = uploadPipeline raw id meta created := by
        unfold uploadOp
        cases uploadPipeline raw id meta created <;> rfl
      rw [hsame, hcond, synthHeaders_eq_nil_iff]
      simp [hraw]
  · intro herr
    have hsame : (uploadOp st id meta created raw).2 = uploadPipeline raw id meta created := by
      unfold uploadOp
      cases uploadPipeline raw id meta created <;> rfl
    rw [hsame] at herr
    cases hres : uploadPipeline raw id meta created with
    | ok s => rw [hres] at herr; simp [UploadResult.isErr] at herr
    | emptyFile =>
      have hst : (uploadOp st id meta created raw).1 = st := by
        unfold uploadOp; rw [hres]
      refine ⟨hst, ?_⟩
      rw [hst]
      unfold previewOp
      rw [hid]
    | noHeaders =>
      have hst : (uploadOp st id meta created raw).1 = st := by
        unfold uploadOp; rw [hres]
      refine ⟨hst, ?_⟩
      rw [hst]
      unfold previewOp
      rw [hid]

/-- C2 witness: the amended theorem applied to the genuinely empty table
against an empty store. -/
theorem upload_structure_failure_iff_witness :
    storeGet ([] : Store) "x" = none ∧
    (((uploadOp [] "x" blankMeta "t0" []).2.isErr = true ↔
       (([] : List (List Cell)) = [] ∨
        ([] : List (List Cell)).getD (detect_header_row []).1 [] = [])) ∧
     ((uploadOp [] "x" blankMeta "t0" []).2.isErr = true →
       (uploadOp [] "x" blankMeta "t0" []).1 = [] ∧
       previewOp (uploadOp [] "x" blankMeta "t0" []).1 "x" "u" = .notFound)) :=
  ⟨rfl, upload_structure_failure_iff [] [] "x" "u" blankMeta "t0" rfl⟩

/-! ## Claim C3 — confirm on a preview session -/

/-- A session exactly as upload leaves it: `preview` status, no extracted
tasks. -/
def samplePreviewSession : Session :=
  { id := "imp1", project_id := "p1", user_id := "u1", file_path := "f", file_type := "csv",
    original_filename := "o.csv", file_size := 3, raw_rows := [[some "T"], [some "x"]],
    header_row_idx := 0, headers := ["T"], rows := [[("T", some "x")]],
    structure_info := ⟨["T"], [("T", "text")], 1, 1, 1, [], false, emptyHierarchy, []⟩,
    smart_mapping := { title := some "T" }, mapping_confidence := 40,
    confidence_details := [("title", "found")], column_analysis := [],
    hierarchy_info := emptyHierarchy, adjacent_pairs := [],
    status := "preview", created_at := "t0" }

/-- C3 counterexample: confirming a preview session (no processed tasks)
without a caller-supplied task list does NOT fail with a conflict error —
the code has no such error path at all.  It succeeds, creates zero
entities, and destroys the session (the resulting store is empty). -/
theorem confirm_preview_succeeds_counterexample :
    samplePreviewSession.status = "preview" ∧
    samplePreviewSession.extracted_tasks = none ∧
    confirmOp [("imp1", samplePreviewSession)] "imp1" "u1" none (some "b1") (some "c1")
      none (fun _ => none) 0 = .ok [] [] := by
  refine ⟨rfl, rfl, ?_⟩
  decide

/-- C3 amended: for every stored session owned by the caller that has no
extracted tasks (preview state), `confirm` without a caller task list and
with a resolvable board and column succeeds with zero created entities and
destroys the session. -/
theorem confirm_preview_no_tasks_succeeds (st : Store) (id uid bid cid : String)
    (s : Session) (dbB : Option String) (dbC : String → Option String) (pos : Int)
    (h1 : storeGet st id = some s) (h2 : s.user_id = uid)
    (h3 : s.extracted_tasks = none) (hb : bid ≠ "") (hc : cid ≠ "") :
    confirmOp st id uid none (some bid) (some cid) dbB dbC pos =
      .ok [] (storeErase st id) := by
  unfold confirmOp
  rw [h1]
  simp [h2, h3, truthyOpt, hb, hc, cardsFromTasks]

/-- C3 witness: the amended theorem applied to the sample preview session. -/
theorem confirm_preview_no_tasks_succeeds_witness :
    (storeGet [("imp1", samplePreviewSession)] "imp1" = some samplePreviewSession ∧
     samplePreviewSession.user_id = "u1" ∧
     samplePreviewSession.extracted_tasks = none) ∧
    confirmOp [("imp1", samplePreviewSession)] "imp1" "u1" none (some "b1") (some "c1")
      none (fun _ => none) 0 = .ok [] (storeErase [("imp1", samplePreviewSession)] "imp1") :=
  ⟨⟨by decide, rfl, rfl⟩,
   confirm_preview_no_tasks_succeeds [("imp1", samplePreviewSession)] "imp1" "u1" "b1" "c1"
     samplePreviewSession none (fun _ => none) 0 (by decide) rfl rfl (by decide) (by decide)⟩

/-! ## Claim C4 — header row selection -/

/-- Two rows for the counterexample: the first scores −16 (two long digit
cells, −10 each as numbers, +4 fill bonus), the second is all-`None` and
scores −1 (the rejection score). -/
def headerCxRowA : List Cell :=
  [some "12345678901234567890123456789012", some "12345678901234567890123456789012",
   none, none, none, none, none, none, none, none]

def headerCxRowB : List Cell := [none]

/-- C4 counterexample: the fold is seeded with best score −1, so a row
scoring below −1 can never be replaced by a later row scoring exactly −1.
Here row 1 has the strictly highest score (−1 vs −16), yet the detector
returns row 0 — so when no row scores ≥ 0 the detector does NOT return the
best (possibly negative) score. -/
theorem header_row_not_best_score_counterexample :
    calculate_header_score headerCxRowA 0 = -16 ∧
    calculate_header_score headerCxRowB 1 = -1 ∧
    calculate_header_score headerCxRowA 0 < calculate_header_score headerCxRowB 1 ∧
    (detect_header_row [headerCxRowA, headerCxRowB]).1 = 0 := by decide

/-- C4 amended: over the first 15 rows, when some row scores ≥ 0 the
detector returns the earliest row attaining the maximum score (a later row
wins only with a strictly greater score); when every row scores below 0
(all such scores are ≤ −1) the detector falls back to row 0 regardless of
the ordering of those negative scores — in particular when all rows are
empty. -/
theorem header_row_selection_amended (raw : List (List Cell)) (hne : raw ≠ []) :
    ((∀ x ∈ scoresFrom (raw.take 15) 0, x < 0) → (detect_header_row raw).1 = 0) ∧
    ((∃ x ∈ scoresFrom (raw.take 15) 0, 0 ≤ x) →
      ∃ j, j < (raw.take 15).length ∧ (detect_header_row raw).1 = j ∧
        0 ≤ (scoresFrom (raw.take 15) 0).getD j 0 ∧
        (∀ k, k < j →
          (scoresFrom (raw.take 15) 0).getD k 0 < (scoresFrom (raw.take 15) 0).getD j 0) ∧
        (∀ k, k < (raw.take 15).length →
          (scoresFrom (raw.take 15) 0).getD k 0 ≤ (scoresFrom (raw.take 15) 0).getD j 0)) := by
  constructor
  · intro hall
    unfold detect_header_row
    rw [if_neg (by simpa using hne)]
    rw [bestFrom_all_le (raw.take 15) 0 0 (-1) (fun x hx => by have := hall x hx; omega)]
  · intro hex
    obtain ⟨x, hx, h0⟩ := hex
    obtain ⟨j, hj, heq, hgt, hfirst, hmax⟩ :=
      bestFrom_first_max (raw.take 15) 0 0 (-1) ⟨x, hx, by omega⟩
    unfold detect_header_row
    rw [if_neg (by simpa using hne)]
    refine ⟨j, hj, ?_, by omega, hfirst, hmax⟩
    simp only [heq]
    omega

/-- A keyword-rich table for the witness. -/
def witnessHeaderTable : List (List Cell) :=
  [[some "Title", some "Priority"], [some "5", some "7"]]

/-- C4 witness: the amended selection theorem applied to a concrete
two-row table. -/
theorem header_row_selection_amended_witness :
    witnessHeaderTable ≠ [] ∧
    (((∀ x ∈ scoresFrom (witnessHeaderTable.take 15) 0, x < 0) →
        (detect_header_row witnessHeaderTable).1 = 0) ∧
     ((∃ x ∈ scoresFrom (witnessHeaderTable.take 15) 0, 0 ≤ x) →
       ∃ j, j < (witnessHeaderTable.take 15).length ∧
         (detect_header_row witnessHeaderTable).1 = j ∧
         0 ≤ (scoresFrom (witnessHeaderTable.take 15) 0).getD j 0 ∧
         (∀ k, k < j →
           (scoresFrom (witnessHeaderTable.take 15) 0).getD k 0 <
             (scoresFrom (witnessHeaderTable.take 15) 0).getD j 0) ∧
         (∀ k, k < (witnessHeaderTable.take 15).length →
           (scoresFrom (witnessHeaderTable.take 15) 0).getD k 0 ≤
             (scoresFrom (witnessHeaderTable.take 15) 0).getD j 0))) :=
  ⟨by decide, header_row_selection_amended witnessHeaderTable (by decide)⟩

/-! ## Claim C5 — priority normalization -/

/-- Modelled from the claim's words: the 15-token priority table
(P0..P4 direct, critical/urgent/highest to P0, high to P1,
medium/normal/med to P2, low to P3, lowest/minor to P4); every other
upper-stripped token is absent from the table. -/
def specPriorityTable : List (String × String) :=
  [("P0", "P0"), ("P1", "P1"), ("P2", "P2"), ("P3", "P3"), ("P4", "P4"),
   ("CRITICAL", "P0"), ("URGENT", "P0"), ("HIGHEST", "P0"),
   ("HIGH", "P1"), ("MEDIUM", "P2"), ("NORMAL", "P2"), ("MED", "P2"),
   ("LOW", "P3"), ("LOWEST", "P4"), ("MINOR", "P4")]

def specPriorityBucket (u : String) : Option String := specPriorityTable.lookup u

/-- C5: priority normalization is total on the 15-token vocabulary and
absent elsewhere — for every raw cell value, the source's bucket chain
agrees exactly with the claim's table applied to the trimmed, upper-cased
token (each listed token maps to exactly one of P0..P4; every other token
yields no priority). -/
theorem priority_normalization_total (v : String) :
    normalizePriority v = specPriorityBucket (pyUpper (pyStrip v)) := by
  have core : ∀ u : String, normalizePriorityCore u = specPriorityBucket u := by
    intro u
    by_cases hu : u ∈ ["P0", "P1", "P2", "P3", "P4", "CRITICAL", "URGENT", "HIGHEST",
        "HIGH", "MEDIUM", "NORMAL", "MED", "LOW", "LOWEST", "MINOR"]
    · fin_cases hu <;> rfl
    · simp only [List.mem_cons, List.not_mem_nil, or_false, not_or] at hu
      obtain ⟨h1, h2, h3, h4, h5, h6, h7, h8, h9, h10, h11, h12, h13, h14, h15⟩ := hu
      simp [normalizePriorityCore, specPriorityBucket, specPriorityTable, List.lookup,
        h1, h2, h3, h4, h5, h6, h7, h8, h9, h10, h11, h12, h13, h14, h15,
        beq_eq_false_iff_ne.mpr h1, beq_eq_false_iff_ne.mpr h2, beq_eq_false_iff_ne.mpr h3,
        beq_eq_false_iff_ne.mpr h4, beq_eq_false_iff_ne.mpr h5, beq_eq_false_iff_ne.mpr h6,
        beq_eq_false_iff_ne.mpr h7, beq_eq_false_iff_ne.mpr h8, beq_eq_false_iff_ne.mpr h9,
        beq_eq_false_iff_ne.mpr h10, beq_eq_false_iff_ne.mpr h11, beq_eq_false_iff_ne.mpr h12,
        beq_eq_false_iff_ne.mpr h13, beq_eq_false_iff_ne.mpr h14, beq_eq_false_iff_ne.mpr h15]
  exact core (pyUpper (pyStrip v))

/-! ## Claim C6 — mapping confidence -/

/-- C6: the confidence of a mapping is the fixed-weight sum over resolved
fields (definition `mappingConfidence`, weights 40/15/10/10/10/5/5/3/2);
hence it never exceeds 100 (it is a sum of naturals, so it is also ≥ 0),
and resolving additional fields while keeping the others resolved never
decreases it. -/
theorem mapping_confidence_bounded_monotone (m m2 : Mapping)
    (h : ((truthyOpt m.title).isSome → (truthyOpt m2.title).isSome) ∧
         ((truthyOpt m.description).isSome → (truthyOpt m2.description).isSome) ∧
         ((truthyOpt m.priority).isSome → (truthyOpt m2.priority).isSome) ∧
         ((truthyOpt m.story_points).isSome → (truthyOpt m2.story_points).isSome) ∧
         ((truthyOpt m.status).isSome → (truthyOpt m2.status).isSome) ∧
         ((truthyOpt m.due_date).isSome → (truthyOpt m2.due_date).isSome) ∧
         ((truthyOpt m.assignee).isSome → (truthyOpt m2.assignee).isSome) ∧
         ((truthyOpt m.start_date).isSome → (truthyOpt m2.start_date).isSome) ∧
         ((truthyOpt m.labels).isSome → (truthyOpt m2.labels).isSome)) :
    mappingConfidence m ≤ 100 ∧ mappingConfidence m ≤ mappingConfidence m2 := by
  obtain ⟨h1, h2, h3, h4, h5, h6, h7, h8, h9⟩ := h
  constructor
  · unfold mappingConfidence
    have := ite_weight_bound ((truthyOpt m.title).isSome = true) 40
    have := ite_weight_bound ((truthyOpt m.description).isSome = true) 15
    have := ite_weight_bound ((truthyOpt m.priority).isSome = true) 10
    have := ite_weight_bound ((truthyOpt m.story_points).isSome = true) 10
    have := ite_weight_bound ((truthyOpt m.status).isSome = true) 10
    have := ite_weight_bound ((truthyOpt m.due_date).isSome = true) 5
    have := ite_weight_bound ((truthyOpt m.assignee).isSome = true) 5
    have := ite_weight_bound ((truthyOpt m.start_date).isSome = true) 3
    have := ite_weight_bound ((truthyOpt m.labels).isSome = true) 2
    omega
  · unfold mappingConfidence
    have := ite_weight_mono _ _ 40 h1
    have := ite_weight_mono _ _ 15 h2
    have := ite_weight_mono _ _ 10 h3
    have := ite_weight_mono _ _ 10 h4
    have := ite_weight_mono _ _ 10 h5
    have := ite_weight_mono _ _ 5 h6
    have := ite_weight_mono _ _ 5 h7
    have := ite_weight_mono _ _ 3 h8
    have := ite_weight_mono _ _ 2 h9
    omega

def emptyMapping : Mapping := {}

def titleOnlyMapping : Mapping := { title := some "T" }

/-- C6 witness: the bound/monotonicity theorem applied to the empty mapping
against a title-only mapping. -/
theorem mapping_confidence_bounded_monotone_witness :
    (((truthyOpt emptyMapping.title).isSome → (truthyOpt titleOnlyMapping.title).isSome) ∧
     ((truthyOpt emptyMapping.description).isSome → (truthyOpt titleOnlyMapping.description).isSome) ∧
     ((truthyOpt emptyMapping.priority).isSome → (truthyOpt titleOnlyMapping.priority).isSome) ∧
     ((truthyOpt emptyMapping.story_points).isSome → (truthyOpt titleOnlyMapping.story_points).isSome) ∧
     ((truthyOpt emptyMapping.status).isSome → (truthyOpt titleOnlyMapping.status).isSome) ∧
     ((truthyOpt emptyMapping.due_date).isSome → (truthyOpt titleOnlyMapping.due_date).isSome) ∧
     ((truthyOpt emptyMapping.assignee).isSome → (truthyOpt titleOnlyMapping.assignee).isSome) ∧
     ((truthyOpt emptyMapping.start_date).isSome → (truthyOpt titleOnlyMapping.start_date).isSome) ∧
     ((truthyOpt emptyMapping.labels).isSome → (truthyOpt titleOnlyMapping.labels).isSome)) ∧
    (mappingConfidence emptyMapping ≤ 100 ∧
     mappingConfidence emptyMapping ≤ mappingConfidence titleOnlyMapping) :=
  ⟨by decide, mapping_confidence_bounded_monotone emptyMapping titleOnlyMapping (by decide)⟩

/-! ## Claim C7 — sequential-id column classification -/

/-- C7 amended: the analyzer classifies a column as sequential-integer-id
exactly when the integer comprehension succeeds with at least 3 parsed
values, STRICTLY more than 80% of the nonempty samples pass the integer
filter, and EVERY adjacent parsed pair is consecutive-by-one (not merely
half of them). -/
theorem sequential_id_classification_amended (values : List String) :
    (analyzeColumn values).type = "sequential_id" ↔
      ∃ nums, colParsedNums values = some nums ∧ 3 ≤ nums.length ∧
        4 * (colNonEmpty values).length < 5 * nums.length ∧ isConsecutive nums = true :=
  (analyze_type_seq_iff values).trans (seqHitCheck_iff values)

/-- Modelled from the claim's words (for comparison with the source): at
least 3 integer-parseable samples, at least 80% of the non-blank samples
integer-parseable, and at least 50% of adjacent parsed pairs
consecutive-by-one. -/
def specSequentialId (values : List String) : Bool :=
  match colParsedNums values with
  | none => false
  | some nums =>
    3 ≤ nums.length && 4 * (colNonEmpty values).length ≤ 5 * nums.length &&
    (nums.length - 1) ≤ 2 * consecCount nums

/-- C7 counterexample: `1, 2, 4` meets the claim's thresholds (3 integer
samples, 100% parseable, 1 of 2 adjacent pairs = 50% consecutive) yet the
code classifies the column as plain text because it requires ALL adjacent
pairs consecutive; `1, 2, 3, 4, x` meets the claim's ≥ 80% threshold
exactly (4 of 5) yet fails the code's strict > 80% test. -/
theorem sequential_id_counterexample :
    (specSequentialId ["1", "2", "4"] = true ∧
     (analyzeColumn ["1", "2", "4"]).type ≠ "sequential_id") ∧
    (specSequentialId ["1", "2", "3", "4", "x"] = true ∧
     (analyzeColumn ["1", "2", "3", "4", "x"]).type ≠ "sequential_id") := by decide

/-! ## Claim C8 — numbered hierarchy example -/

def exampleHierHeaders : List String := ["ID", "Task"]

def exampleHierRows : List StructRow :=
  [ [("ID", some "1"),   ("Task", some "Setup environment")],
    [("ID", some "1.1"), ("Task", some "Install tools")],
    [("ID", some "1.2"), ("Task", some "Configure access")],
    [("ID", some "2"),   ("Task", some "Build feature")],
    [("ID", some "2.1"), ("Task", some "Write tests")] ]

def exampleHierMapping : Mapping := { title := some "Task" }

/-- C8: on the 5-row table whose id column holds `1, 1.1, 1.2, 2, 2.1`,
hierarchy detection reports `is_hierarchical = true` with
`hierarchy_pattern = "numbered"` and that column as `id_column`, and
extraction gives the row with id `1.1` hierarchy level 1 (dot-separated
segment count minus one) and parent id `"1"` (all segments but the last,
joined by dots). -/
theorem hierarchy_numbered_example :
    detect_hierarchical_structure exampleHierRows exampleHierHeaders =
      { is_hierarchical := true, id_column := some "ID", parent_column := none,
        level_indicator := none, hierarchy_pattern := some "numbered" } ∧
    ((extractTasks exampleHierHeaders exampleHierRows exampleHierMapping []
        (detect_hierarchical_structure exampleHierRows exampleHierHeaders) true).get? 1).map
      (fun t => (t.hierarchy_level, t.parent_id)) = some (1, some "1") := by decide

/-! ## Claim C9 — extracted title bounds -/

def longCellText : String := String.mk (List.replicate 250 'a')

def longTitleMapping : Mapping := { title := some "Long" }

/-- C9 counterexample: a mapped title of 250 characters (well under 500) is
NOT preserved in full — the default smart-title path truncates it to 200
characters before the final 500-character cap is applied. -/
theorem title_truncated_at_200_counterexample :
    longCellText.length = 250 ∧
    (extractTasks ["Long"] [[("Long", some longCellText)]] longTitleMapping []
        emptyHierarchy true).map (fun t => t.title.length) = [200] := by decide

/-- C9 amended: every extracted task's title is nonempty and at most 500
characters; but a title resolved through the default smart-title generator
is truncated to 200 characters, so only titles of at most 200 characters
survive verbatim on that path (the 500-character cap is only reached by the
adjacent-content fallback). -/
theorem extracted_titles_nonempty_bounded (headers : List String) (rows : List StructRow)
    (m : Mapping) (pairs : List AdjPair) (hi : HierarchyInfo) (ust : Bool) (t : Task)
    (ht : t ∈ extractTasks headers rows m pairs hi ust) :
    t.title ≠ "" ∧ t.title.length ≤ 500 := by
  unfold extractTasks at ht
  obtain ⟨p, hp, he⟩ := List.mem_filterMap.mp ht
  obtain ⟨ts, hts, htitle⟩ := extractRow_title he
  have hne := resolveTitle_some_ne hts
  constructor
  · rw [htitle]
    intro hcon
    apply hne
    have hdata : ts.data.take 500 = [] := congrArg String.data hcon
    rcases List.take_eq_nil_iff.mp hdata with h0 | h0
    · cases h0
    · cases ts with
      | mk d => cases h0; rfl
  · rw [htitle]
    show (ts.data.take 500).length ≤ 500
    rw [List.length_take]
    exact min_le_left _ _

def witnessTaskC9 : Task :=
  { title := "Fix bug", description := "", priority := none, story_points := none,
    status := none, assignee := none, due_date := none, start_date := none,
    labels := [], parent_id := none, hierarchy_level := 0, original_row := 1 }

def witnessMappingC9 : Mapping := { title := some "T" }

/-- C9 witness: the amended bound applied to a concrete one-row table. -/
theorem extracted_titles_nonempty_bounded_witness :
    witnessTaskC9 ∈ extractTasks ["T"] [[("T", some "Fix bug")]] witnessMappingC9 []
      emptyHierarchy true ∧
    (witnessTaskC9.title ≠ "" ∧ witnessTaskC9.title.length ≤ 500) :=
  ⟨by decide, extracted_titles_nonempty_bounded ["T"] [[("T", some "Fix bug")]]
    witnessMappingC9 [] emptyHierarchy true witnessTaskC9 (by decide)⟩

/-! ## Claim C10 — frame effect of process -/

/-- C10: a successful `process` mutates, within the session, only the
extracted task list, the active column mapping, the two optional
AI-suggestion fields, and the lifecycle status (set to `processed`); the
raw rows, header row index, headers, structured rows, detected structure,
engine-guessed smart mapping, mapping confidence and its details, column
analysis, hierarchy info, adjacent pairs, and all file/ownership metadata
are unchanged. -/
theorem process_frame_effect (s : Session) (om : Option Mapping) (ua ust : Bool)
    (a1 a2 : Option String) :
    (processOp s om ua ust a1 a2).1.raw_rows = s.raw_rows ∧
    (processOp s om ua ust a1 a2).1.header_row_idx = s.header_row_idx ∧
    (processOp s om ua ust a1 a2).1.headers = s.headers ∧
    (processOp s om ua ust a1 a2).1.rows = s.rows ∧
    (processOp s om ua ust a1 a2).1.structure_info = s.structure_info ∧
    (processOp s om ua ust a1 a2).1.smart_mapping = s.smart_mapping ∧
    (processOp s om ua ust a1 a2).1.mapping_confidence = s.mapping_confidence ∧
    (processOp s om ua ust a1 a2).1.confidence_details = s.confidence_details ∧
    (processOp s om ua ust a1 a2).1.column_analysis = s.column_analysis ∧
    (processOp s om ua ust a1 a2).1.hierarchy_info = s.hierarchy_info ∧
    (processOp s om ua ust a1 a2).1.adjacent_pairs = s.adjacent_pairs ∧
    (processOp s om ua ust a1 a2).1.project_id = s.project_id ∧
    (processOp s om ua ust a1 a2).1.user_id = s.user_id ∧
    (processOp s om ua ust a1 a2).1.file_path = s.file_path ∧
    (processOp s om ua ust a1 a2).1.file_type = s.file_type ∧
    (processOp s om ua ust a1 a2).1.original_filename = s.original_filename ∧
    (processOp s om ua ust a1 a2).1.file_size = s.file_size ∧
    (processOp s om ua ust a1 a2).1.created_at = s.created_at ∧
    (processOp s om ua ust a1 a2).1.id = s.id ∧
    (processOp s om ua ust a1 a2).1.status = "processed" ∧
    (processOp s om ua ust a1 a2).1.extracted_tasks =
      some (extractTasks s.headers s.rows (om.getD s.smart_mapping) s.adjacent_pairs
        s.hierarchy_info ust) ∧
    (processOp s om ua ust a1 a2).1.column_mapping = some (om.getD s.smart_mapping) :=
  ⟨rfl, rfl, rfl, rfl, rfl, rfl, rfl, rfl, rfl, rfl, rfl, rfl, rfl, rfl, rfl, rfl, rfl, rfl,
   rfl, rfl, rfl, rfl⟩

end FlowboardImports
